import Mathlib

/-!
Verification of the codec framework header (src/framework/codec.h):
encode-state TTL policy, the backward-growing encode buffer, the packed
packet-type field of the per-packet decode state, and the flag-bit layouts.

Machine integers are embedded as Nat with explicit reduction modulo 2^w at
the points where the C++ code performs wrapping arithmetic; pointers are
embedded as mathematical integer addresses (Int).
-/

namespace Snort

/-- MIN_TTL from codec.h (uint8_t). -/
def MIN_TTL : Nat := 64

/-- MAX_TTL from codec.h (uint8_t). -/
def MAX_TTL : Nat := 255

/-! EncodeFlags constants (uint64_t bit masks) from codec.h. -/

def ENC_FLAG_FWD : Nat := 0x8000000000000000
def ENC_FLAG_SEQ : Nat := 0x4000000000000000
def ENC_FLAG_ID : Nat := 0x2000000000000000
def ENC_FLAG_NET : Nat := 0x1000000000000000
def ENC_FLAG_DEF : Nat := 0x0800000000000000
def ENC_FLAG_RAW : Nat := 0x0400000000000000
def ENC_FLAG_PAY : Nat := 0x0200000000000000
def ENC_FLAG_PSH : Nat := 0x0100000000000000
def ENC_FLAG_FIN : Nat := 0x0080000000000000
def ENC_FLAG_TTL : Nat := 0x0040000000000000
def ENC_FLAG_INLINE : Nat := 0x0020000000000000
def ENC_FLAG_VAL : Nat := 0x00000000FFFFFFFF

/-- The eleven structural (single high bit) EncodeFlags constants, in the
order they are declared in codec.h. -/
def encStructuralFlags : List Nat :=
  [ENC_FLAG_FWD, ENC_FLAG_SEQ, ENC_FLAG_ID, ENC_FLAG_NET, ENC_FLAG_DEF,
   ENC_FLAG_RAW, ENC_FLAG_PAY, ENC_FLAG_PSH, ENC_FLAG_FIN, ENC_FLAG_TTL,
   ENC_FLAG_INLINE]

/-- `forward(f)` from codec.h: `return f & ENC_FLAG_FWD;` converted to bool. -/
def forward (f : Nat) : Bool := f &&& ENC_FLAG_FWD != 0

/-- `reverse(f)` from codec.h: `return !forward(f);`. -/
def reverse (f : Nat) : Bool := !forward f

/-- ENC_PROTO_UNSET from codec.h (uint8_t sentinel). -/
def ENC_PROTO_UNSET : Nat := 0xFF

/-- Modelled from the spec: `ip::IpApi` lives in protocols/ip.h, which is not
part of this source tree; the spec describes it only as an "IP metadata
accessor" that "may hold its own nested state". It is embedded as an opaque
state value. -/
structure IpApi where
  st : Nat
deriving DecidableEq

/-- Modelled from the spec: `IpApi::reset()` is outside this source tree; the
spec says only that the accessor is "separately reset" by
`SnortData::reset()`. It is embedded as restoring the opaque state to its
zero value. -/
def IpApi.reset (_ : IpApi) : IpApi := ⟨0⟩

/-- EncState from codec.h. Field widths: flags is uint64_t, dsize and
next_ethertype uint16_t, next_proto and ttl uint8_t. -/
structure EncState where
  ip_api : IpApi
  flags : Nat
  dsize : Nat
  next_ethertype : Nat
  next_proto : Nat
  ttl : Nat
deriving DecidableEq

/-- The EncState constructor from codec.h:
`EncState(api, f, pr, t, data_size)` sets flags = f, dsize = data_size,
next_ethertype = 0, next_proto = pr, ttl = t. The initializer
`next_proto(pr)` narrows the uint16_t argument pr into the uint8_t member,
truncating it modulo 256. -/
def EncState.init (api : IpApi) (f : Nat) (pr : Nat) (t : Nat)
    (data_size : Nat) : EncState :=
  { ip_api := api, flags := f, dsize := data_size, next_ethertype := 0,
    next_proto := pr % 256, ttl := t }

/-- `EncState::next_proto_set()` from codec.h. -/
def EncState.next_proto_set (s : EncState) : Bool :=
  s.next_proto != ENC_PROTO_UNSET

/-- `EncState::ethertype_set()` from codec.h. -/
def EncState.ethertype_set (s : EncState) : Bool :=
  s.next_ethertype != 0

/-- `EncState::get_ttl(lyr_ttl)` from codec.h. All quantities are uint8_t;
`MAX_TTL - lyr_ttl` never wraps because lyr_ttl ≤ 255 = MAX_TTL, so Nat
subtraction agrees with the uint8_t subtraction. -/
def EncState.get_ttl (s : EncState) (lyr_ttl : Nat) : Nat :=
  if forward s.flags then
    if s.flags &&& ENC_FLAG_TTL != 0 then s.ttl
    else lyr_ttl
  else
    let new_ttl := if s.flags &&& ENC_FLAG_TTL != 0 then s.ttl
                   else MAX_TTL - lyr_ttl
    if new_ttl < MIN_TTL then MIN_TTL else new_ttl

/-- Claim C1: for every EncodeFlags value and 8-bit layer TTL, get_ttl
returns the layer TTL (forward, no override), the stored override (forward
with override), max(255 - layer_ttl, 64) (reverse, no override), or
max(override, 64) (reverse with override). -/
theorem get_ttl_spec (s : EncState) (lyr_ttl : Nat)
    (hl : lyr_ttl < 256) (ht : s.ttl < 256) :
    (s.flags &&& ENC_FLAG_FWD ≠ 0 → s.flags &&& ENC_FLAG_TTL = 0 →
       s.get_ttl lyr_ttl = lyr_ttl) ∧
    (s.flags &&& ENC_FLAG_FWD ≠ 0 → s.flags &&& ENC_FLAG_TTL ≠ 0 →
       s.get_ttl lyr_ttl = s.ttl) ∧
    (s.flags &&& ENC_FLAG_FWD = 0 → s.flags &&& ENC_FLAG_TTL = 0 →
       s.get_ttl lyr_ttl = max (255 - lyr_ttl) 64) ∧
    (s.flags &&& ENC_FLAG_FWD = 0 → s.flags &&& ENC_FLAG_TTL ≠ 0 →
       s.get_ttl lyr_ttl = max s.ttl 64) := by
  unfold EncState.get_ttl forward MIN_TTL MAX_TTL
  refine ⟨?_, ?_, ?_, ?_⟩ <;> intro hf htl <;> simp [hf, htl] <;>
    split_ifs <;> omega

/-- Witness for C1 at a concrete reverse-direction state without override. -/
theorem get_ttl_spec_witness :
    (EncState.init ⟨0⟩ 0 7 10 0).get_ttl 100 = 155 := by
  have h := (get_ttl_spec (EncState.init ⟨0⟩ 0 7 10 0) 100 (by decide)
    (by decide)).2.2.1 (by decide) (by decide)
  simpa using h

/-- Claim C7: next_proto_set and ethertype_set report exactly whether the
fields differ from their unset sentinels (0xFF and 0), and the constructor
initializes next_ethertype to 0 and next_proto from its protocol argument,
narrowed to the uint8_t field width (pr mod 256). -/
theorem sentinel_spec (s : EncState) (api : IpApi)
    (f pr t ds : Nat) :
    (s.next_proto_set = true ↔ s.next_proto ≠ ENC_PROTO_UNSET) ∧
    (s.ethertype_set = true ↔ s.next_ethertype ≠ 0) ∧
    (EncState.init api f pr t ds).next_ethertype = 0 ∧
    (EncState.init api f pr t ds).ethertype_set = false ∧
    (EncState.init api f pr t ds).next_proto = pr % 256 := by
  refine ⟨?_, ?_, rfl, rfl, rfl⟩ <;>
    simp [EncState.next_proto_set, EncState.ethertype_set]

/-- Claim C8: ENC_FLAG_VAL is exactly the low 32 bits; every structural flag
is a distinct single high bit, pairwise distinct, and disjoint from
ENC_FLAG_VAL. -/
theorem enc_flag_layout_spec :
    ENC_FLAG_VAL = 0xFFFFFFFF ∧
    ENC_FLAG_FWD = 2 ^ 63 ∧ ENC_FLAG_SEQ = 2 ^ 62 ∧ ENC_FLAG_ID = 2 ^ 61 ∧
    ENC_FLAG_NET = 2 ^ 60 ∧ ENC_FLAG_DEF = 2 ^ 59 ∧ ENC_FLAG_RAW = 2 ^ 58 ∧
    ENC_FLAG_PAY = 2 ^ 57 ∧ ENC_FLAG_PSH = 2 ^ 56 ∧ ENC_FLAG_FIN = 2 ^ 55 ∧
    ENC_FLAG_TTL = 2 ^ 54 ∧ ENC_FLAG_INLINE = 2 ^ 53 ∧
    encStructuralFlags.Pairwise (fun a b => a ≠ b) ∧
    (encStructuralFlags.all fun x => x &&& ENC_FLAG_VAL == 0) = true := by
  decide

/-- Buffer from codec.h (copied there from dnet/blob.h). `base` is a
uint8_t pointer, embedded as an integer address; `off`, `end` (here `end_`,
since `end` is reserved) and `max_len` are uint32_t. -/
structure Buffer where
  base : Int
  off : Nat
  end_ : Nat
  max_len : Nat
deriving DecidableEq

/-- The Buffer constructor from codec.h:
`Buffer(buf, size) : base(buf + size + 1), off(0), end(0), max_len(size)`. -/
def Buffer.init (buf : Int) (size : Nat) : Buffer :=
  { base := buf + size + 1, off := 0, end_ := 0, max_len := size }

/-- `Buffer::size()` from codec.h: returns `end`. -/
def Buffer.size (b : Buffer) : Nat := b.end_

/-- `Buffer::allocate(len)` from codec.h. The guard `(end + len) > max_len`
adds two uint32_t values, so the sum wraps modulo 2^32; on success
`end += len` wraps the same way and the pointer `base` moves down by the
full `len`. Returns the new state and the boolean result. -/
def Buffer.allocate (b : Buffer) (len : Nat) : Buffer × Bool :=
  if (b.end_ + len) % 2 ^ 32 > b.max_len then (b, false)
  else
    ({ b with
        end_ := (b.end_ + len) % 2 ^ 32,
        base := b.base - len }, true)

/-- `Buffer::clear()` from codec.h: `base = base + end; end = 0; off = 0;`. -/
def Buffer.clear (b : Buffer) : Buffer :=
  { b with base := b.base + b.end_, end_ := 0, off := 0 }

/-- The addressing invariant of a Buffer built over `(buf, size)`:
consumed never exceeds capacity, base + consumed stays at `buf + size + 1`
(one past the end of the array), and the capacity is fixed at `size`. -/
def Buffer.inv (b : Buffer) (buf : Int) (size : Nat) : Prop :=
  b.end_ ≤ b.max_len ∧ b.base + b.end_ = buf + size + 1 ∧ b.max_len = size

/-- States reachable from a freshly constructed `Buffer(buf, size)` by
arbitrary uint32_t allocate calls (successful or failed) and clear calls. -/
inductive Buffer.Reach (buf : Int) (size : Nat) : Buffer → Prop
  | init : Buffer.Reach buf size (Buffer.init buf size)
  | alloc (b : Buffer) (len : Nat) (h : len < 2 ^ 32)
      (hb : Buffer.Reach buf size b) :
      Buffer.Reach buf size (b.allocate len).1
  | clear (b : Buffer) (hb : Buffer.Reach buf size b) :
      Buffer.Reach buf size b.clear

/-- States reachable as in `Buffer.Reach`, but only through allocate calls
whose 32-bit sum `end + len` does not wrap. -/
inductive Buffer.ReachNW (buf : Int) (size : Nat) : Buffer → Prop
  | init : Buffer.ReachNW buf size (Buffer.init buf size)
  | alloc (b : Buffer) (len : Nat) (h : b.end_ + len < 2 ^ 32)
      (hb : Buffer.ReachNW buf size b) :
      Buffer.ReachNW buf size (b.allocate len).1
  | clear (b : Buffer) (hb : Buffer.ReachNW buf size b) :
      Buffer.ReachNW buf size b.clear

lemma inv_init (buf : Int) (size : Nat) : (Buffer.init buf size).inv buf size :=
  ⟨Nat.zero_le _, by simp [Buffer.init], rfl⟩

lemma inv_allocate (b : Buffer) (buf : Int) (size len : Nat)
    (hb : b.inv buf size) (hnw : b.end_ + len < 2 ^ 32) :
    ((b.allocate len).1).inv buf size := by
  obtain ⟨h1, h2, h3⟩ := hb
  unfold Buffer.allocate
  rw [Nat.mod_eq_of_lt hnw]
  split_ifs with hg
  · exact ⟨h1, h2, h3⟩
  · refine ⟨by dsimp only; omega, ?_, h3⟩
    dsimp only
    push_cast
    omega

lemma inv_clear (b : Buffer) (buf : Int) (size : Nat)
    (hb : b.inv buf size) : b.clear.inv buf size := by
  obtain ⟨h1, h2, h3⟩ := hb
  exact ⟨Nat.zero_le _, by simp [Buffer.clear]; omega, h3⟩

lemma reachNW_inv (buf : Int) (size : Nat) (b : Buffer)
    (h : Buffer.ReachNW buf size b) : b.inv buf size := by
  induction h with
  | init => exact inv_init buf size
  | alloc b len hnw hb ih => exact inv_allocate b buf size len ih hnw
  | clear b hb ih => exact inv_clear b buf size ih

/-- Claim C2 (amended): if `len` is at most the remaining capacity,
allocate succeeds, size grows by exactly `len`, the write cursor drops by
`len` and `off` is untouched; if `len` exceeds the remaining capacity and
the 32-bit sum `end + len` does not wrap, allocate fails and leaves the
state unchanged. -/
theorem allocate_spec (b : Buffer) (len : Nat)
    (hinv : b.end_ ≤ b.max_len) (hcap : b.max_len < 2 ^ 32) :
    (len ≤ b.max_len - b.end_ →
       (b.allocate len).2 = true ∧
       (b.allocate len).1.size = b.size + len ∧
       (b.allocate len).1.base = b.base - len ∧
       (b.allocate len).1.off = b.off) ∧
    (len > b.max_len - b.end_ → b.end_ + len < 2 ^ 32 →
       (b.allocate len).2 = false ∧ (b.allocate len).1 = b) := by
  constructor
  · intro hle
    have hs : b.end_ + len < 2 ^ 32 := by omega
    unfold Buffer.allocate
    rw [Nat.mod_eq_of_lt hs]
    have hng : ¬ (b.end_ + len > b.max_len) := by omega
    simp [hng, Buffer.size]
  · intro hgt hnw
    unfold Buffer.allocate
    rw [Nat.mod_eq_of_lt hnw]
    have hg : b.end_ + len > b.max_len := by omega
    simp [hg]

/-- Witness for C2: both branches of allocate at concrete inputs. -/
theorem allocate_spec_witness :
    ((Buffer.mk 1006 0 5 10).allocate 3).2 = true ∧
    ((Buffer.mk 1006 0 5 10).allocate 3).1.size = 8 ∧
    ((Buffer.mk 1006 0 5 10).allocate 7).2 = false ∧
    ((Buffer.mk 1006 0 5 10).allocate 7).1 = Buffer.mk 1006 0 5 10 := by
  have h3 := allocate_spec (Buffer.mk 1006 0 5 10) 3 (by decide) (by decide)
  have h7 := allocate_spec (Buffer.mk 1006 0 5 10) 7 (by decide) (by decide)
  have a3 := h3.1 (by decide)
  have a7 := h7.2 (by decide) (by decide)
  exact ⟨a3.1, a3.2.1, a7.1, a7.2⟩

/-- Counterexample to claim C2 as stated: from the state
(base 1006, off 0, end 5, max_len 10), the length 4294967293 exceeds the
remaining capacity 5, yet the 32-bit sum `5 + 4294967293` wraps to 2, so
allocate succeeds and moves the state instead of failing unchanged. -/
theorem allocate_claim_counterexample :
    4294967293 > (Buffer.mk 1006 0 5 10).max_len - (Buffer.mk 1006 0 5 10).size ∧
    ((Buffer.mk 1006 0 5 10).allocate 4294967293).2 = true ∧
    ((Buffer.mk 1006 0 5 10).allocate 4294967293).1 ≠ Buffer.mk 1006 0 5 10 := by
  refine ⟨by decide, ?_, ?_⟩ <;> decide

/-- Claim C3 (amended): the two addressing invariants (consumed ≤ capacity
and base + consumed = buf + size + 1) hold after construction, are
preserved by clear, and are preserved by every successful or failed
allocate whose 32-bit sum `end + len` does not wrap. -/
theorem buffer_invariant_spec (buf : Int) (size : Nat) (b : Buffer)
    (len : Nat) :
    (Buffer.init buf size).inv buf size ∧
    (b.inv buf size → b.end_ + len < 2 ^ 32 →
       ((b.allocate len).1).inv buf size) ∧
    (b.inv buf size → b.clear.inv buf size) :=
  ⟨inv_init buf size,
   fun hb hnw => inv_allocate b buf size len hb hnw,
   fun hb => inv_clear b buf size hb⟩

/-- Witness for C3 at a concrete invariant-satisfying state. -/
theorem buffer_invariant_spec_witness :
    ((Buffer.mk 1007 0 4 10).allocate 3).1.inv 1000 10 ∧
    (Buffer.mk 1007 0 4 10).clear.inv 1000 10 := by
  have h := buffer_invariant_spec 1000 10 (Buffer.mk 1007 0 4 10) 3
  exact ⟨h.2.1 ⟨by decide, by decide, by decide⟩ (by decide),
         h.2.2 ⟨by decide, by decide, by decide⟩⟩

/-- Counterexample to claim C3 as stated: the state
(base 1006, off 0, end 5, max_len 10) satisfies both invariants for
buf = 1000, size = 10, but a successful allocate of 4294967293 (whose
32-bit sum wraps) breaks base + end = buf + size + 1. -/
theorem buffer_invariant_counterexample :
    (Buffer.mk 1006 0 5 10).inv 1000 10 ∧
    ((Buffer.mk 1006 0 5 10).allocate 4294967293).2 = true ∧
    ¬ (((Buffer.mk 1006 0 5 10).allocate 4294967293).1.inv 1000 10) := by
  refine ⟨⟨by decide, by decide, by decide⟩, by decide, fun h => ?_⟩
  have h2 := h.2.1
  revert h2
  decide

/-- Claim C4 (amended): every state reachable through non-wrapping allocate
calls and clear calls is returned by clear to exactly the freshly
constructed buffer: size 0, off 0, and base back at buf + size + 1 — hence
clear followed by any successful allocate sequence reproduces exactly the
states reachable from a fresh buffer. -/
theorem clear_restores_spec (buf : Int) (size : Nat) (b : Buffer)
    (h : Buffer.ReachNW buf size b) :
    b.clear = Buffer.init buf size ∧ b.clear.size = 0 ∧
    b.clear.off = 0 ∧ b.clear.base = buf + size + 1 := by
  obtain ⟨h1, h2, h3⟩ := reachNW_inv buf size b h
  have hbase : b.clear.base = buf + size + 1 := by
    simp [Buffer.clear]
    omega
  refine ⟨?_, rfl, rfl, hbase⟩
  cases b with
  | mk base off end_ max_len =>
    simp only [Buffer.clear, Buffer.init] at *
    simp_all

/-- Witness for C4 at a concrete reachable state. -/
theorem clear_restores_spec_witness :
    (((Buffer.init 1000 10).allocate 4).1).clear = Buffer.init 1000 10 :=
  (clear_restores_spec 1000 10 ((Buffer.init 1000 10).allocate 4).1
    (Buffer.ReachNW.alloc (Buffer.init 1000 10) 4 (by decide)
      Buffer.ReachNW.init)).1

/-- Counterexample to claim C4 as stated: the state reached from a fresh
Buffer(1000, 10) by allocate(5) and then allocate(4294967293) — both
accepted uint32_t lengths, the second succeeding because its 32-bit sum
wraps — is a reachable state on which clear() does not restore the write
cursor to buf + size + 1 = 1011. -/
theorem clear_restores_counterexample :
    Buffer.Reach 1000 10
      ((((Buffer.init 1000 10).allocate 5).1.allocate 4294967293).1) ∧
    ((((Buffer.init 1000 10).allocate 5).1.allocate 4294967293).1).clear.base
      ≠ 1000 + 10 + 1 := by
  constructor
  · exact Buffer.Reach.alloc _ 4294967293 (by norm_num)
      (Buffer.Reach.alloc _ 5 (by norm_num) Buffer.Reach.init)
  · decide

/-! DecodeFlags constants (the enum is 16 bits wide) from codec.h. -/

def PKT_TYPE_MASK : Nat := 0x07
def DECODE_ERR_BAD_TTL : Nat := 0x0100
def DECODE_PKT_TRUST : Nat := 0x0200
def DECODE_FRAG : Nat := 0x0400
def DECODE_MF : Nat := 0x0800

/-- The PktType enum class (uint8_t) from codec.h. -/
inductive PktType
  | UNKOWN
  | IP
  | TCP
  | UDP
  | ICMP4
  | ICMP6
  | ARP
deriving DecidableEq

/-- The numeric value of each PktType enumerator (PKT_TYPE_*). -/
def PktType.toNat : PktType → Nat
  | .UNKOWN => 0x00
  | .IP => 0x01
  | .TCP => 0x02
  | .UDP => 0x03
  | .ICMP4 => 0x04
  | .ICMP6 => 0x05
  | .ARP => 0x06

/-- Modelled from the spec: `mpls::MplsHdr` lives in protocols/mpls.h, which
is not part of this source tree; it is embedded as an opaque value. -/
structure MplsHdr where
  st : Nat
deriving DecidableEq

/-- SnortData from codec.h, in declared field order: the three header
pointers (embedded as integer addresses, 0 = null), the uint16_t ports,
the packed uint16_t decode_flags, then ip_api and mplsHdr. -/
structure SnortData where
  tcph : Nat
  udph : Nat
  icmph : Nat
  sp : Nat
  dp : Nat
  decode_flags : Nat
  ip_api : IpApi
  mplsHdr : MplsHdr
deriving DecidableEq

/-- `SnortData::reset()` from codec.h:
`memset(&tcph, 0, offsetof(SnortData, ip_api)); ip_api.reset();`.
The memset zero-fills the struct from its first field `tcph` up to (and
excluding) `ip_api`, i.e. exactly tcph, udph, icmph, sp, dp and
decode_flags in the declared layout; `ip_api.reset()` is a member call on
`ip_api` alone, and `mplsHdr`, which lies after `ip_api`, is not written. -/
def SnortData.reset (s : SnortData) : SnortData :=
  { tcph := 0, udph := 0, icmph := 0, sp := 0, dp := 0, decode_flags := 0,
    ip_api := s.ip_api.reset, mplsHdr := s.mplsHdr }

/-- `SnortData::set_pkt_type(pkt_type)` from codec.h:
`decode_flags = (decode_flags & ~PKT_TYPE_MASK) | (uint16_t)pkt_type;`.
The complement `~PKT_TYPE_MASK` reduced to the 16-bit width of
decode_flags is `0xFFFF ^^^ PKT_TYPE_MASK = 0xFFF8`. -/
def SnortData.set_pkt_type (s : SnortData) (pkt_type : PktType) : SnortData :=
  { s with decode_flags :=
      (s.decode_flags &&& (0xFFFF ^^^ PKT_TYPE_MASK)) ||| pkt_type.toNat }

/-- `SnortData::get_pkt_type()` from codec.h, returning the numeric value
of the enum cast `(PktType)(decode_flags & PKT_TYPE_MASK)`. -/
def SnortData.get_pkt_type (s : SnortData) : Nat :=
  s.decode_flags &&& PKT_TYPE_MASK

/-! Decode flag constants (uint16_t) for CodecData::codec_flags. -/

def CODEC_DF : Nat := 0x0001
def CODEC_UNSURE_ENCAP : Nat := 0x0002
def CODEC_SAVE_LAYER : Nat := 0x0004
def CODEC_ENCAP_LAYER : Nat := CODEC_SAVE_LAYER ||| CODEC_UNSURE_ENCAP
def CODEC_ROUTING_SEEN : Nat := 0x0008
def CODEC_STREAM_REBUILT : Nat := 0x0100

lemma testBit_false_of_lt_pow (x i j : Nat) (hx : x < 2 ^ j) (hij : j ≤ i) :
    x.testBit i = false := by
  have hp : (2 : Nat) ^ j ≤ 2 ^ i := Nat.pow_le_pow_right (by norm_num) hij
  exact Nat.testBit_lt_two_pow (lt_of_lt_of_le hx hp)

lemma pkt_type_lt (v : PktType) : v.toNat < 8 := by cases v <;> decide

lemma mask16_eq : (0xFFFF ^^^ PKT_TYPE_MASK : Nat) = 65528 := by decide

lemma set_mask_get (d vn : Nat) (hv : vn < 8) :
    ((d &&& 65528) ||| vn) &&& 7 = vn := by
  apply Nat.eq_of_testBit_eq
  intro i
  simp only [Nat.testBit_land, Nat.testBit_lor]
  rcases Nat.lt_or_ge i 3 with hi | hi
  · have m0 : Nat.testBit 65528 0 = false := by decide
    have m1 : Nat.testBit 65528 1 = false := by decide
    have m2 : Nat.testBit 65528 2 = false := by decide
    have s0 : Nat.testBit 7 0 = true := by decide
    have s1 : Nat.testBit 7 1 = true := by decide
    have s2 : Nat.testBit 7 2 = true := by decide
    interval_cases i <;> simp [m0, m1, m2, s0, s1, s2]
  · have h7 : (7 : Nat).testBit i = false :=
      testBit_false_of_lt_pow 7 i 3 (by norm_num) hi
    have hvb : vn.testBit i = false := testBit_false_of_lt_pow vn i 3 hv hi
    simp [h7, hvb]

lemma set_mask_high (d vn : Nat) (hd : d < 65536) (hv : vn < 8) (i : Nat)
    (hi : 3 ≤ i) : ((d &&& 65528) ||| vn).testBit i = d.testBit i := by
  simp only [Nat.testBit_land, Nat.testBit_lor]
  have hvb : vn.testBit i = false := testBit_false_of_lt_pow vn i 3 hv hi
  rcases Nat.lt_or_ge i 16 with h16 | h16
  · have hm : (65528 : Nat).testBit i = true := by
      interval_cases i <;> decide
    simp [hm, hvb]
  · have hdb : d.testBit i = false := testBit_false_of_lt_pow d i 16 hd h16
    have hm : (65528 : Nat).testBit i = false :=
      testBit_false_of_lt_pow 65528 i 16 (by norm_num) h16
    simp [hdb, hm, hvb]

/-- Claim C5: for every SnortData state with a 16-bit decode_flags and every
packet type, get_pkt_type after set_pkt_type returns that type's value, and
every bit of decode_flags above position 2 is unchanged. -/
theorem pkt_type_roundtrip_spec (s : SnortData) (v : PktType)
    (hd : s.decode_flags < 2 ^ 16) :
    (s.set_pkt_type v).get_pkt_type = v.toNat ∧
    ∀ i, 3 ≤ i →
      (s.set_pkt_type v).decode_flags.testBit i =
        s.decode_flags.testBit i := by
  constructor
  · show ((s.decode_flags &&& (0xFFFF ^^^ PKT_TYPE_MASK)) ||| v.toNat) &&& PKT_TYPE_MASK = v.toNat
    rw [mask16_eq]
    exact set_mask_get s.decode_flags v.toNat (pkt_type_lt v)
  · intro i hi
    show ((s.decode_flags &&& (0xFFFF ^^^ PKT_TYPE_MASK)) ||| v.toNat).testBit i = _
    rw [mask16_eq]
    exact set_mask_high s.decode_flags v.toNat hd (pkt_type_lt v) i hi

/-- Witness for C5 at a concrete state with high flag bits set
(0x0E08 = DECODE_MF, DECODE_FRAG, DECODE_PKT_TRUST, DECODE_ERR_BAD_TTL). -/
theorem pkt_type_roundtrip_spec_witness :
    (SnortData.mk 1 2 3 4 5 0x0F05 ⟨9⟩ ⟨8⟩).decode_flags < 2 ^ 16 ∧
    ((SnortData.mk 1 2 3 4 5 0x0F05 ⟨9⟩ ⟨8⟩).set_pkt_type .TCP).get_pkt_type
      = PktType.TCP.toNat ∧
    ∀ i, 3 ≤ i →
      ((SnortData.mk 1 2 3 4 5 0x0F05 ⟨9⟩ ⟨8⟩).set_pkt_type
          .TCP).decode_flags.testBit i =
        (SnortData.mk 1 2 3 4 5 0x0F05 ⟨9⟩ ⟨8⟩).decode_flags.testBit i :=
  ⟨by decide,
   (pkt_type_roundtrip_spec (SnortData.mk 1 2 3 4 5 0x0F05 ⟨9⟩ ⟨8⟩) .TCP
     (by decide)).1,
   (pkt_type_roundtrip_spec (SnortData.mk 1 2 3 4 5 0x0F05 ⟨9⟩ ⟨8⟩) .TCP
     (by decide)).2⟩

/-- Claim C6: reset() zeroes the three header references, both ports and the
packed decode_flags (so the packet type reads back as unknown), and
separately resets the ip_api accessor; this holds for every prior state,
non-zero sentinels included. -/
theorem reset_spec (s : SnortData) :
    s.reset.tcph = 0 ∧ s.reset.udph = 0 ∧ s.reset.icmph = 0 ∧
    s.reset.sp = 0 ∧ s.reset.dp = 0 ∧ s.reset.decode_flags = 0 ∧
    s.reset.get_pkt_type = PktType.UNKOWN.toNat ∧
    s.reset.ip_api = s.ip_api.reset :=
  ⟨rfl, rfl, rfl, rfl, rfl, rfl,
   by simp [SnortData.get_pkt_type, SnortData.reset, PktType.toNat], rfl⟩

/-- Claim C9: the combined encapsulation flag is the bitwise OR of the
save-layer and unsure-encapsulation bits, and any codec_flags value that
contains the combined flag contains both individual bits. -/
theorem encap_layer_spec :
    CODEC_ENCAP_LAYER = (CODEC_SAVE_LAYER ||| CODEC_UNSURE_ENCAP) ∧
    ∀ c : Nat, c &&& CODEC_ENCAP_LAYER = CODEC_ENCAP_LAYER →
      c &&& CODEC_SAVE_LAYER = CODEC_SAVE_LAYER ∧
      c &&& CODEC_UNSURE_ENCAP = CODEC_UNSURE_ENCAP := by
  refine ⟨rfl, ?_⟩
  intro c h
  have h6 : c &&& 6 = 6 := h
  have h64 : (6 : Nat) &&& 4 = 4 := by decide
  have h62 : (6 : Nat) &&& 2 = 2 := by decide
  constructor
  · show c &&& 4 = 4
    calc c &&& 4 = c &&& (6 &&& 4) := by rw [h64]
      _ = (c &&& 6) &&& 4 := by rw [Nat.land_assoc]
      _ = 6 &&& 4 := by rw [h6]
      _ = 4 := h64
  · show c &&& 2 = 2
    calc c &&& 2 = c &&& (6 &&& 2) := by rw [h62]
      _ = (c &&& 6) &&& 2 := by rw [Nat.land_assoc]
      _ = 6 &&& 2 := by rw [h6]
      _ = 2 := h62

/-- Witness for C9 at the concrete codec_flags value 0x01C6. -/
theorem encap_layer_spec_witness :
    454 &&& CODEC_SAVE_LAYER = CODEC_SAVE_LAYER ∧
    454 &&& CODEC_UNSURE_ENCAP = CODEC_UNSURE_ENCAP :=
  encap_layer_spec.2 454 (by decide)

/-- Claim C10: reset() leaves the mplsHdr field unchanged — the zero-fill
stops at ip_api's offset, ip_api.reset() touches only ip_api, and mplsHdr
lies after ip_api in the declared layout. -/
theorem reset_mpls_frame_spec (s : SnortData) :
    s.reset.mplsHdr = s.mplsHdr := rfl

end Snort
